import Mathlib

/-!
Shallow embedding of the gesture-to-action pipeline of the checkers
repository, together with proofs about the claims of its specification.

Python floats are modelled as exact rationals (`ℚ`); Python `int()`
truncation toward zero is modelled by `ratTrunc`; Python lists by `List`;
Python `None`-or-value by `Option`.
-/

namespace Checkers

/-- A board cell address `(row, col)` as produced by the input mapper
(Python tuples of ints). -/
abbrev Cell := ℤ × ℤ

/-- Truncation toward zero of a rational, the semantics of Python `int()`
applied to a float. -/
def ratTrunc (q : ℚ) : ℤ :=
  if q < 0 then -(⌊-q⌋) else ⌊q⌋

/-- Embedding of the `SimpleHandGesture` dataclass of
`app/backend/vision/simple_hand_tracker.py`: the binary open/closed flag, the
detection confidence and the normalized hand position.  The position is an
`Option` because `_screen_to_board_coords` guards against a missing one. -/
structure SimpleHandGesture where
  is_open : Bool
  confidence : ℚ
  position : Option (ℚ × ℚ)
  deriving DecidableEq

/-- Embedding of the action dictionaries built by
`InputMapper.map_gesture_to_action`, one constructor per `GameAction` enum
value of `app/backend/processing/input_mapper.py` (the enum also declares
`CONFIRM`, so it is a constructor here even though no branch builds it). -/
inductive Action where
  | select (position : Cell) (confidence : ℚ)
  | move (fromPos toPos : Cell) (confidence : ℚ)
  | hover (position : Cell) (confidence : ℚ)
  | cancel (confidence : ℚ)
  | confirm (confidence : ℚ)
  deriving DecidableEq

/-- The mutable fields of the `InputMapper` class
(`app/backend/processing/input_mapper.py`, `__init__`). -/
structure InputMapperState where
  board_size : ℤ
  selected_piece : Option Cell
  hover_position : Option Cell
  click_position : Option Cell
  last_valid_position : Option Cell
  drag_start_position : Option Cell
  last_action_time : ℚ
  action_cooldown : ℚ
  hover_history : List (Option Cell)
  hover_stability_threshold : ℕ
  is_hand_closed : Bool
  was_grabbing : Bool
  gesture_stability_threshold : ℕ
  gesture_history : List Bool
  gesture_history_size : ℕ
  deriving DecidableEq

/-- The state built by `InputMapper.__init__(board_size)`. -/
def initInputMapper (board_size : ℤ) : InputMapperState where
  board_size := board_size
  selected_piece := none
  hover_position := none
  click_position := none
  last_valid_position := none
  drag_start_position := none
  last_action_time := 0
  action_cooldown := 2/10
  hover_history := []
  hover_stability_threshold := 2
  is_hand_closed := false
  was_grabbing := false
  gesture_stability_threshold := 8
  gesture_history := []
  gesture_history_size := 15

/-- Embedding of `InputMapper.update_game_state`: overwrite the selection to
match the game state (the Python guard `if different then assign` has the
same net effect). -/
def updateGameState (s : InputMapperState) (pos : Option Cell) : InputMapperState :=
  { s with selected_piece := pos }

/-- The history update at the top of `InputMapper._update_hand_state`:
append the vote, then `pop(0)` once if the list exceeds
`gesture_history_size`. -/
def pushVote (history : List Bool) (size : ℕ) (v : Bool) : List Bool :=
  let h := history ++ [v]
  if h.length > size then h.tail else h

/-- The last `n` entries of a vote history, the Python `history[-n:]`
(for `n ≤ history.length`). -/
def lastWindow (h : List Bool) (n : ℕ) : List Bool :=
  h.drop (h.length - n)

/-- Embedding of `InputMapper._update_hand_state`.  A vote `true` means the
hand was detected closed.  Returns the updated state and the Python return
value (whether a stable state change fired).  `closed_count` is the Python
`sum(recent_detections)` and the 75% thresholds are the Python
`gesture_stability_threshold * 0.75` comparisons. -/
def updateHandState (s : InputMapperState) (hand_closed : Bool) :
    InputMapperState × Bool :=
  let h := pushVote s.gesture_history s.gesture_history_size hand_closed
  if h.length < s.gesture_stability_threshold then
    ({ s with gesture_history := h }, false)
  else
    let recent := lastWindow h s.gesture_stability_threshold
    let closed_count := recent.countP id
    let open_count := recent.length - closed_count
    let stable_closed :=
      (closed_count : ℚ) ≥ (s.gesture_stability_threshold : ℚ) * (3/4)
    let stable_open :=
      (open_count : ℚ) ≥ (s.gesture_stability_threshold : ℚ) * (3/4)
    if stable_closed ∧ ¬ s.is_hand_closed then
      ({ s with gesture_history := h, was_grabbing := s.is_hand_closed,
                is_hand_closed := true }, true)
    else if stable_open ∧ s.is_hand_closed then
      ({ s with gesture_history := h, was_grabbing := s.is_hand_closed,
                is_hand_closed := false }, true)
    else
      ({ s with gesture_history := h }, false)

/-- Embedding of `InputMapper._screen_to_board_coords`: normalized position
to pixels, board bounding square of side `min(width, height)` centred in the
frame, reject outside, divide into `board_size` cells with `int()`
truncation, validate bounds, return `(row, col)`. -/
def screenToBoardCoords (board_size : ℤ) (screen_pos : Option (ℚ × ℚ))
    (screen_dims : ℤ × ℤ) : Option Cell :=
  match screen_pos with
  | none => none
  | some np =>
    let x : ℚ := np.1 * (screen_dims.1 : ℚ)
    let y : ℚ := np.2 * (screen_dims.2 : ℚ)
    let board_size_pixels : ℚ := (min screen_dims.1 screen_dims.2 : ℤ)
    let board_x_offset : ℚ := ((screen_dims.1 : ℚ) - board_size_pixels) / 2
    let board_y_offset : ℚ := ((screen_dims.2 : ℚ) - board_size_pixels) / 2
    if x < board_x_offset ∨ x > board_x_offset + board_size_pixels ∨
       y < board_y_offset ∨ y > board_y_offset + board_size_pixels then
      none
    else
      let board_x := ratTrunc ((x - board_x_offset) / board_size_pixels * (board_size : ℚ))
      let board_y := ratTrunc ((y - board_y_offset) / board_size_pixels * (board_size : ℚ))
      if 0 ≤ board_x ∧ board_x < board_size ∧ 0 ≤ board_y ∧ board_y < board_size then
        some (board_y, board_x)
      else
        none

/-- Embedding of `InputMapper._get_stable_hover_position`: append the
position to `hover_history` (trimmed to 10), return it only if it occurs at
least `min(hover_stability_threshold, len(history))` times. -/
def getStableHoverPosition (s : InputMapperState) (board_pos : Option Cell) :
    InputMapperState × Option Cell :=
  let hh0 := s.hover_history ++ [board_pos]
  let hh := if hh0.length > 10 then hh0.tail else hh0
  let s1 := { s with hover_history := hh }
  match board_pos with
  | none => (s1, none)
  | some bp =>
    let count := hh.countP (fun p => p == some bp)
    if count ≥ min s.hover_stability_threshold hh.length then
      (s1, some bp)
    else
      (s1, none)

/-- The transition block of `InputMapper.map_gesture_to_action` (the body of
`if hand_state_changed:`, lines 98-174).  The second component distinguishes
the Python control flow: `some r` models an early `return r` out of the
whole method, `none` models falling through to the code after the block. -/
def mapTransition (s : InputMapperState) (g : SimpleHandGesture)
    (board_pos : Option Cell) (current_time : ℚ) :
    InputMapperState × Option (Option Action) :=
  if s.is_hand_closed ∧ ¬ s.was_grabbing then
    -- OPEN→GRABBED: mouse click down
    match board_pos with
    | some bp =>
      let s1 := { s with last_action_time := current_time,
                         click_position := some bp,
                         drag_start_position := some bp,
                         last_valid_position := some bp }
      match s1.selected_piece with
      | none => (s1, some (some (.select bp g.confidence)))
      | some _ => (s1, none)
    | none => (s, none)
  else if ¬ s.is_hand_closed ∧ s.was_grabbing then
    -- GRABBED→OPEN: mouse release
    let pr : InputMapperState × Option Cell :=
      match board_pos with
      | some bp => ({ s with last_valid_position := some bp }, some bp)
      | none =>
        (s, match s.last_valid_position with
            | some p => some p
            | none => s.click_position)
    let s1 := pr.1
    let release_pos := pr.2
    match s1.selected_piece with
    | none =>
      match release_pos with
      | some rp =>
        ({ s1 with last_action_time := current_time },
         some (some (.select rp g.confidence)))
      | none => (s1, none)
    | some sel =>
      match release_pos with
      | some rp =>
        if rp = sel then
          (s1, some none)
        else
          ({ s1 with selected_piece := none, last_action_time := current_time },
           some (some (.move sel rp g.confidence)))
      | none =>
        ({ s1 with selected_piece := none, last_action_time := current_time },
         some (some (.cancel g.confidence)))
  else
    (s, none)

/-- The tail of `InputMapper.map_gesture_to_action` after the transition
block (lines 176-192): continuous position tracking, then deduplicated hover
while the hand is open. -/
def mapTail (s : InputMapperState) (g : SimpleHandGesture)
    (board_pos : Option Cell) : InputMapperState × Option Action :=
  let s1 := match board_pos with
            | some bp => { s with last_valid_position := some bp }
            | none => s
  if s1.is_hand_closed then
    (s1, none)
  else
    let r := getStableHoverPosition s1 board_pos
    match r.2 with
    | some p =>
      if some p ≠ r.1.hover_position then
        ({ r.1 with hover_position := some p }, some (.hover p g.confidence))
      else
        (r.1, none)
    | none => (r.1, none)

/-- Embedding of `InputMapper.map_gesture_to_action` for the
`SimpleHandGesture` input shape used by the websocket server: derive
`hand_closed` from `is_open`, run `_update_hand_state`, map the position,
debounce transition actions, run the transition block, then the tail. -/
def mapGestureToAction (s : InputMapperState) (g : SimpleHandGesture)
    (screen_dims : ℤ × ℤ) (current_time : ℚ) :
    InputMapperState × Option Action :=
  let hand_closed := !g.is_open
  let upd := updateHandState s hand_closed
  let s1 := upd.1
  let hand_state_changed := upd.2
  let board_pos := screenToBoardCoords s1.board_size g.position screen_dims
  if current_time - s1.last_action_time < s1.action_cooldown ∧ hand_state_changed then
    (s1, none)
  else
    let tr := if hand_state_changed then
                mapTransition s1 g board_pos current_time
              else
                (s1, none)
    match tr.2 with
    | some ret => (tr.1, ret)
    | none => mapTail tr.1 g board_pos

/-- The frame-processing decision of
`GameWebSocketServer.process_camera_frames`
(`app/backend/api/websocket_server.py`, lines 250-263): the mapper is
invoked only when `detect_hand_state` returned a gesture; on a `None`
detection the mapper state is untouched and no action is produced. -/
def processCameraFrame (s : InputMapperState) (gesture : Option SimpleHandGesture)
    (screen_dims : ℤ × ℤ) (current_time : ℚ) : InputMapperState × Option Action :=
  match gesture with
  | none => (s, none)
  | some g => mapGestureToAction s g screen_dims current_time

/-- Iterated frame processing: run `processCameraFrame` on a list of
(detection, time) inputs, collecting the per-frame action slots. -/
def runFrames (s : InputMapperState) (screen_dims : ℤ × ℤ) :
    List (Option SimpleHandGesture × ℚ) → InputMapperState × List (Option Action)
  | [] => (s, [])
  | (g, t) :: rest =>
    let r := processCameraFrame s g screen_dims t
    let rr := runFrames r.1 screen_dims rest
    (rr.1, r.2 :: rr.2)

/-- The mutable fields of `SimpleHandTracker` that
`_update_hand_state_v2` touches (`app/backend/vision/simple_hand_tracker.py`,
`__init__`): the hysteretic state (`true` = open), the vote history and the
`stability_frames` constant (4). -/
structure SimpleTrackerState where
  current_state : Bool
  state_history : List Bool
  stability_frames : ℕ
  deriving DecidableEq

/-- The history update at the top of
`SimpleHandTracker._update_hand_state_v2`: append the vote, then trim to the
last `stability_frames` entries when the length exceeds
`stability_frames * 2`. -/
def pushVoteV2 (history : List Bool) (sf : ℕ) (v : Bool) : List Bool :=
  let h := history ++ [v]
  if h.length > sf * 2 then h.drop (h.length - sf) else h

/-- The `stability_threshold` computed by
`SimpleHandTracker._update_hand_state_v2`: a shorter sub-window for
reliable detections (`extended_fingers >= 0`), the full `stability_frames`
for the legacy area-ratio path (`extended_fingers = -1`). -/
def v2Threshold (sf : ℕ) (extended_fingers : ℤ) : ℕ :=
  if extended_fingers ≥ 0 then max 3 (sf / 2) else sf

/-- Embedding of `SimpleHandTracker._update_hand_state_v2`.  A vote `true`
means the hand was detected open.  `open_votes` is the Python
`sum(recent_states)`, `stability_threshold` the Python
`max(3, stability_frames // 2) if extended_fingers >= 0 else
stability_frames`, and the hysteresis test compares
`max(open_votes, closed_votes) / stability_threshold` to 0.6.  Returns the
updated state and the Python return value (the current state). -/
def updateHandStateV2 (s : SimpleTrackerState) (is_open_detected : Bool)
    (extended_fingers : ℤ) : SimpleTrackerState × Bool :=
  let h := pushVoteV2 s.state_history s.stability_frames is_open_detected
  let stability_threshold := v2Threshold s.stability_frames extended_fingers
  if h.length ≥ stability_threshold then
    let recent := lastWindow h stability_threshold
    let open_votes := recent.countP id
    let closed_votes := stability_threshold - open_votes
    let desired_state := decide (open_votes > closed_votes)
    let confidence_frac : ℚ := (max open_votes closed_votes : ℕ) / (stability_threshold : ℚ)
    if desired_state ≠ s.current_state ∧ confidence_frac ≥ 6/10 then
      ({ s with current_state := desired_state, state_history := [] },
       desired_state)
    else
      ({ s with state_history := h }, s.current_state)
  else
    ({ s with state_history := h }, s.current_state)

/-- The fixed weights and floor of `MarkerConfidenceScorer.__init__`
(`backend/detection.py`). -/
def weightGeometric : ℚ := 30/100
def weightColor : ℚ := 25/100
def weightUniformity : ℚ := 25/100
def weightTemporal : ℚ := 20/100
def minComponentThreshold : ℚ := 6/10

/-- Embedding of `MarkerConfidenceScorer.calculate_confidence`
(`backend/detection.py`, lines 302-320): zero when any sub-score is below
the floor, otherwise the weighted sum capped at 1.0, returned together with
the component list. -/
def calculateConfidence (geometric_score color_score uniformity_score
    temporal_score : ℚ) : ℚ × List ℚ :=
  let components := [geometric_score, color_score, uniformity_score, temporal_score]
  if components.any (fun score => score < minComponentThreshold) then
    (0, components)
  else
    let final_confidence :=
      geometric_score * weightGeometric +
      color_score * weightColor +
      uniformity_score * weightUniformity +
      temporal_score * weightTemporal
    (min 1 final_confidence, components)

/-- A checkers board as in `CheckersEngine` (`app/backend/core/game_engine.py`):
an 8×8 integer grid, 0 empty, ±1 men, ±2 kings. -/
abbrev Board := Fin 8 → Fin 8 → ℤ

/-- Guarded board read `board[r][c]` for `ℤ` indices.  The Python code only
reads cells that passed `_is_valid_position` (or loop indices), so the
out-of-range default 0 is never reached on those paths. -/
def cellAt (b : Board) (r c : ℤ) : ℤ :=
  if h : 0 ≤ r ∧ r < 8 ∧ 0 ≤ c ∧ c < 8 then
    b ⟨r.toNat, by omega⟩ ⟨c.toNat, by omega⟩
  else 0

/-- Guarded board write `board[r][c] = v` for `ℤ` indices. -/
def setCell (b : Board) (r c : ℤ) (v : ℤ) : Board :=
  fun i j => if (i : ℤ) = r ∧ (j : ℤ) = c then v else b i j

/-- One recorded move, as appended to `move_history` by
`CheckersEngine.make_move`. -/
structure MoveRecord where
  fromPos : Cell
  toPos : Cell
  captured : Option Cell
  promoted : Bool
  player : ℤ
  deriving DecidableEq

/-- The mutable fields of `CheckersEngine`. -/
structure CheckersEngine where
  board : Board
  current_player : ℤ
  move_history : List MoveRecord

/-- The board built by `CheckersEngine.initialize_board`: red men (1) on
dark squares of rows 0-2, black men (-1) on dark squares of rows 5-7. -/
def initialBoard : Board := fun r c =>
  if (r.val + c.val) % 2 = 1 then
    if r.val < 3 then 1
    else if 5 ≤ r.val then -1
    else 0
  else 0

/-- The engine state after `CheckersEngine.__init__`. -/
def initialEngine : CheckersEngine where
  board := initialBoard
  current_player := 1
  move_history := []

/-- Embedding of `CheckersEngine._is_valid_position`. -/
def isValidPosition (row col : ℤ) : Prop :=
  0 ≤ row ∧ row < 8 ∧ 0 ≤ col ∧ col < 8

instance (row col : ℤ) : Decidable (isValidPosition row col) := by
  unfold isValidPosition
  infer_instance

/-- Embedding of `CheckersEngine.get_valid_moves`: directions from piece
type, then per direction the simple move and the jump, appended in the
Python loop order. -/
def getValidMoves (e : CheckersEngine) (position : Cell) : List Cell :=
  let row := position.1
  let col := position.2
  let piece := cellAt e.board row col
  if piece = 0 ∨ piece * e.current_player ≤ 0 then []
  else
    let is_king := piece.natAbs = 2
    let directions : List (ℤ × ℤ) :=
      if is_king then [(-1, -1), (-1, 1), (1, -1), (1, 1)]
      else if piece = 1 then [(1, -1), (1, 1)]
      else [(-1, -1), (-1, 1)]
    directions.foldl (fun moves d =>
      let new_row := row + d.1
      let new_col := col + d.2
      let moves :=
        if isValidPosition new_row new_col ∧ cellAt e.board new_row new_col = 0 then
          moves ++ [(new_row, new_col)]
        else moves
      let jump_row := row + 2 * d.1
      let jump_col := col + 2 * d.2
      if isValidPosition jump_row jump_col ∧ isValidPosition new_row new_col ∧
         cellAt e.board jump_row jump_col = 0 ∧
         cellAt e.board new_row new_col ≠ 0 ∧
         cellAt e.board new_row new_col * piece < 0 then
        moves ++ [(jump_row, jump_col)]
      else moves) []

/-- The row-major cell enumeration used by the engine's `for row ... for
col ...` loops. -/
def allCells : List Cell :=
  (List.range 8).flatMap (fun r => (List.range 8).map (fun c => ((r : ℤ), (c : ℤ))))

/-- Embedding of `CheckersEngine.get_all_valid_moves`: every current-player
piece with a nonempty move list, in loop order. -/
def getAllValidMoves (e : CheckersEngine) : List (Cell × List Cell) :=
  allCells.filterMap (fun p =>
    if cellAt e.board p.1 p.2 * e.current_player > 0 then
      let moves := getValidMoves e p
      if moves.isEmpty then none else some (p, moves)
    else none)

/-- Embedding of `CheckersEngine.check_game_over`: piece counts, then a
no-moves check for the current player. -/
def checkGameOver (e : CheckersEngine) : Option ℤ :=
  let red_pieces := (allCells.filter (fun p => 0 < cellAt e.board p.1 p.2)).length
  let black_pieces := (allCells.filter (fun p => cellAt e.board p.1 p.2 < 0)).length
  if red_pieces = 0 then some (-1)
  else if black_pieces = 0 then some 1
  else
    let has_moves := allCells.any (fun p =>
      decide (cellAt e.board p.1 p.2 * e.current_player > 0) &&
      !(getValidMoves e p).isEmpty)
    if ¬ has_moves then some (-e.current_player) else none

/-- The result dictionary of `CheckersEngine.make_move`: the `valid: False`
shape, or the `valid: True` shape with its payload. -/
inductive MoveOutcome where
  | invalid (error : String)
  | success (move : MoveRecord) (board_state : Board) (current_player : ℤ)
      (game_over : Option ℤ) (all_valid_moves : List (Cell × List Cell))

/-- The `valid` field of the returned dictionary. -/
def MoveOutcome.validFlag : MoveOutcome → Bool
  | .invalid _ => false
  | .success _ _ _ _ _ => true

/-- Embedding of `CheckersEngine.make_move`: reject when `to_pos` is not
among `get_valid_moves(from_pos)` (before any mutation), otherwise move the
piece, remove a jumped piece, promote on the back rank, switch players and
record the move.  The Python `(from_row + to_row) // 2` midpoints are
nonnegative on every reachable call, where `Int` division agrees with
Python floor division. -/
def makeMove (e : CheckersEngine) (from_pos to_pos : Cell) :
    CheckersEngine × MoveOutcome :=
  let valid_moves := getValidMoves e from_pos
  if to_pos ∉ valid_moves then
    (e, .invalid "Invalid move")
  else
    let piece := cellAt e.board from_pos.1 from_pos.2
    let b1 := setCell (setCell e.board to_pos.1 to_pos.2 piece)
                from_pos.1 from_pos.2 0
    let capture := (to_pos.1 - from_pos.1).natAbs = 2
    let mid_row := (from_pos.1 + to_pos.1) / 2
    let mid_col := (from_pos.2 + to_pos.2) / 2
    let captured : Option Cell := if capture then some (mid_row, mid_col) else none
    let b2 := if capture then setCell b1 mid_row mid_col 0 else b1
    let promoted := (piece = 1 ∧ to_pos.1 = 7) ∨ (piece = -1 ∧ to_pos.1 = 0)
    let b3 := if piece = 1 ∧ to_pos.1 = 7 then setCell b2 to_pos.1 to_pos.2 2
              else if piece = -1 ∧ to_pos.1 = 0 then setCell b2 to_pos.1 to_pos.2 (-2)
              else b2
    let new_player := e.current_player * (-1)
    let move_record : MoveRecord :=
      { fromPos := from_pos, toPos := to_pos, captured := captured,
        promoted := decide promoted, player := -new_player }
    let e1 : CheckersEngine :=
      { board := b3, current_player := new_player,
        move_history := e.move_history ++ [move_record] }
    (e1, .success move_record b3 new_player (checkGameOver e1) (getAllValidMoves e1))

/-- The four action tags the spec allows a processed frame to produce
(`select_piece`, `move_piece`, `hover`, `cancel`); the fifth enum value
`CONFIRM` is excluded. -/
def Action.isMapperOutput : Action → Prop
  | .select _ _ => True
  | .move _ _ _ => True
  | .hover _ _ => True
  | .cancel _ => True
  | .confirm _ => False

instance (a : Action) : Decidable a.isMapperOutput := by
  cases a <;> · unfold Action.isMapperOutput; infer_instance

/-- The transition-triggered action tags (everything but `hover` and
`confirm`): the ones the debounce cooldown applies to. -/
def Action.isTransitionAction : Action → Prop
  | .select _ _ => True
  | .move _ _ _ => True
  | .cancel _ => True
  | .hover _ _ => False
  | .confirm _ => False

instance (a : Action) : Decidable a.isTransitionAction := by
  cases a <;> · unfold Action.isTransitionAction; infer_instance

/-- A mapper state holding a selection at (3,3) with a recorded last valid
drag position (1,1), whose vote history is one open vote short of a
CLOSED→OPEN transition. -/
def releaseWithFallbackState : InputMapperState :=
  { initInputMapper 8 with
    selected_piece := some (3, 3),
    last_valid_position := some (1, 1),
    is_hand_closed := true,
    gesture_history := [false, false, false, false, false, false, false] }

/-- The same situation with no recorded fallback position at all. -/
def releaseNoFallbackState : InputMapperState :=
  { initInputMapper 8 with
    selected_piece := some (3, 3),
    is_hand_closed := true,
    gesture_history := [false, false, false, false, false, false, false] }

/-- An open-hand gesture whose normalized position (0,0) falls outside the
centred board square of a 640×480 frame. -/
def offBoardOpenGesture : SimpleHandGesture :=
  { is_open := true, confidence := 1, position := some (0, 0) }

/-- A fresh mapper whose vote history is one closed vote short of an
OPEN→CLOSED transition. -/
def pendingCloseState : InputMapperState :=
  { initInputMapper 8 with
    gesture_history := [true, true, true, true, true, true, true] }

/-- A closed-hand gesture over cell (2,3) of an 8×8 board on a 640×640
frame (normalized x 7/16 → column 3, normalized y 5/16 → row 2). -/
def cell23ClosedGesture : SimpleHandGesture :=
  { is_open := false, confidence := 1, position := some (7/16, 5/16) }

/-- The open-hand gesture at the same cell (2,3). -/
def cell23OpenGesture : SimpleHandGesture :=
  { is_open := true, confidence := 1, position := some (7/16, 5/16) }

/-- Press-and-release-on-the-same-cell scenario: press at (2,3), external
selection sync, then six open frames; the sixth open vote fires the
CLOSED→OPEN release on cell (2,3). -/
def c6press := mapGestureToAction pendingCloseState cell23ClosedGesture (640, 640) 10

def c6r2 := mapGestureToAction (updateGameState c6press.1 (some (2, 3))) cell23OpenGesture (640, 640) 11

def c6r3 := mapGestureToAction c6r2.1 cell23OpenGesture (640, 640) 12

def c6r4 := mapGestureToAction c6r3.1 cell23OpenGesture (640, 640) 13

def c6r5 := mapGestureToAction c6r4.1 cell23OpenGesture (640, 640) 14

def c6r6 := mapGestureToAction c6r5.1 cell23OpenGesture (640, 640) 15

def c6r7 := mapGestureToAction c6r6.1 cell23OpenGesture (640, 640) 16

/-- A mapper state holding selection (2,3) one open vote short of a
CLOSED→OPEN transition. -/
def sameCellReleaseState : InputMapperState :=
  { initInputMapper 8 with
    selected_piece := some (2, 3),
    is_hand_closed := true,
    gesture_history := [true, true, false, false, false, false, false] }

/-- A mapper whose previous action happened at time 10, one open vote short
of a CLOSED→OPEN transition. -/
def recentActionState : InputMapperState :=
  { initInputMapper 8 with
    is_hand_closed := true,
    last_action_time := 10,
    gesture_history := [false, false, false, false, false, false, false] }

/-- A mapper holding a selection at (3,4), for the 30-frame no-detection
scenario. -/
def selected34State : InputMapperState :=
  { initInputMapper 8 with selected_piece := some (3, 4) }

/-- A mapper whose last-8 vote window will hold four closed and four open
votes after one more open vote. -/
def fiftyFiftyState : InputMapperState :=
  { initInputMapper 8 with
    gesture_history := [true, true, true, true, false, false, false] }

/-- A tracker state whose window will hold two open and two closed votes
after one more closed vote (legacy path, `extended_fingers = -1`). -/
def fiftyFiftyTrackerState : SimpleTrackerState :=
  { current_state := true, state_history := [true, false, true], stability_frames := 4 }

/-- A tracker state that transitions to CLOSED on the next closed vote. -/
def closingTrackerState : SimpleTrackerState :=
  { current_state := true, state_history := [false, false], stability_frames := 4 }

/-! ## Helper lemmas -/

theorem updateHandState_board_size (s : InputMapperState) (v : Bool) :
    (updateHandState s v).1.board_size = s.board_size := by
  simp only [updateHandState]
  repeat' split
  all_goals rfl

theorem updateHandState_selected_piece (s : InputMapperState) (v : Bool) :
    (updateHandState s v).1.selected_piece = s.selected_piece := by
  simp only [updateHandState]
  repeat' split
  all_goals rfl

theorem updateHandState_last_action_time (s : InputMapperState) (v : Bool) :
    (updateHandState s v).1.last_action_time = s.last_action_time := by
  simp only [updateHandState]
  repeat' split
  all_goals rfl

theorem updateHandState_action_cooldown (s : InputMapperState) (v : Bool) :
    (updateHandState s v).1.action_cooldown = s.action_cooldown := by
  simp only [updateHandState]
  repeat' split
  all_goals rfl

theorem updateHandState_click_position (s : InputMapperState) (v : Bool) :
    (updateHandState s v).1.click_position = s.click_position := by
  simp only [updateHandState]
  repeat' split
  all_goals rfl

theorem updateHandState_last_valid_position (s : InputMapperState) (v : Bool) :
    (updateHandState s v).1.last_valid_position = s.last_valid_position := by
  simp only [updateHandState]
  repeat' split
  all_goals rfl

/-- When `_update_hand_state` reports a transition, the new `was_grabbing`
is the previous `is_hand_closed` and the new `is_hand_closed` is its
negation. -/
theorem updateHandState_fired_flags (s : InputMapperState) (v : Bool)
    (h : (updateHandState s v).2 = true) :
    (updateHandState s v).1.was_grabbing = s.is_hand_closed ∧
    (updateHandState s v).1.is_hand_closed = !s.is_hand_closed := by
  simp only [updateHandState] at h ⊢
  repeat' split at h
  all_goals (repeat' split)
  all_goals simp_all

/-- Every early return out of the transition block carries a select, move
or cancel action and has recorded the current time as the action time. -/
theorem mapTransition_emit (s : InputMapperState) (g : SimpleHandGesture)
    (bp : Option Cell) (t : ℚ) (a : Action)
    (h : (mapTransition s g bp t).2 = some (some a)) :
    a.isTransitionAction ∧
    (mapTransition s g bp t).1.last_action_time = t ∧
    (mapTransition s g bp t).1.action_cooldown = s.action_cooldown := by
  simp only [mapTransition] at h ⊢
  repeat' split at h
  all_goals (repeat' split)
  all_goals simp_all
  all_goals (subst h; trivial)

/-- When the transition block falls through, the hand-closed flag is
untouched, and a release that fell through with no selection had an
off-board position. -/
theorem mapTransition_fallthrough (s : InputMapperState) (g : SimpleHandGesture)
    (bp : Option Cell) (t : ℚ)
    (h : (mapTransition s g bp t).2 = none) :
    (mapTransition s g bp t).1.is_hand_closed = s.is_hand_closed ∧
    (s.is_hand_closed = false → s.was_grabbing = true → bp = none) := by
  simp only [mapTransition] at h ⊢
  repeat' split at h
  all_goals (repeat' split)
  all_goals simp_all

/-- The tail of the mapper emits nothing while the hand is closed. -/
theorem mapTail_closed (s : InputMapperState) (g : SimpleHandGesture)
    (bp : Option Cell) (h : s.is_hand_closed = true) :
    (mapTail s g bp).2 = none := by
  simp only [mapTail]
  repeat' split
  all_goals simp_all

/-- The tail of the mapper emits nothing on an off-board position. -/
theorem mapTail_none_pos (s : InputMapperState) (g : SimpleHandGesture) :
    (mapTail s g none).2 = none := by
  simp only [mapTail, getStableHoverPosition]
  repeat' split
  all_goals simp_all

/-- The only action the tail of the mapper can emit is a hover. -/
theorem mapTail_emit (s : InputMapperState) (g : SimpleHandGesture)
    (bp : Option Cell) (a : Action) (h : (mapTail s g bp).2 = some a) :
    ∃ p, a = .hover p g.confidence := by
  simp only [mapTail, getStableHoverPosition] at h
  repeat' split at h
  all_goals simp_all
  all_goals (subst h; exact ⟨_, _, rfl⟩)

theorem transitionAction_isMapperOutput (a : Action)
    (h : a.isTransitionAction) : a.isMapperOutput := by
  cases a <;> simp_all [Action.isTransitionAction, Action.isMapperOutput]

/-! ## Claim theorems -/

/-- C1: one call to `InputMapper.map_gesture_to_action` with one gesture
returns at most one action — the return value is `None` or exactly one
dictionary (here, the single `Option Action` result), and any returned
action is tagged `select_piece`, `move_piece`, `hover` or `cancel` (never
the fifth enum value `confirm`). -/
theorem mapGestureToAction_single_action (s : InputMapperState)
    (g : SimpleHandGesture) (dims : ℤ × ℤ) (t : ℚ) (a : Action)
    (h : (mapGestureToAction s g dims t).2 = some a) :
    a.isMapperOutput := by
  simp only [mapGestureToAction] at h
  split at h
  · simp at h
  · split at h
    · next ret heq =>
      simp only at h
      subst h
      split at heq
      · exact transitionAction_isMapperOutput a (mapTransition_emit _ _ _ _ _ heq).1
      · simp at heq
    · next heq =>
      obtain ⟨p, rfl⟩ := mapTail_emit _ _ _ _ h
      trivial

unseal Rat.mul Rat.inv Rat.add Rat.sub in
/-- Witness for C1: a concrete frame whose single emitted action is a
`move_piece`, which is one of the four allowed tags. -/
theorem mapGestureToAction_single_action_witness :
    (Action.move (3, 3) (1, 1) 1).isMapperOutput :=
  mapGestureToAction_single_action releaseWithFallbackState offBoardOpenGesture
    (640, 480) 100 _ (by decide)

unseal Rat.mul Rat.inv Rat.add Rat.sub in
/-- Counterexample to C2: a CLOSED→OPEN release while the mapped board
position is `None` — with a selection at (3,3) and a recorded last valid
drag position (1,1) — emits `MOVE((3,3),(1,1))`, not `CANCEL`. -/
theorem offboard_release_emits_move_counterexample :
    (updateHandState releaseWithFallbackState (!offBoardOpenGesture.is_open)).2 = true ∧
    (updateHandState releaseWithFallbackState (!offBoardOpenGesture.is_open)).1.is_hand_closed = false ∧
    releaseWithFallbackState.selected_piece = some (3, 3) ∧
    screenToBoardCoords releaseWithFallbackState.board_size offBoardOpenGesture.position (640, 480) = none ∧
    (mapGestureToAction releaseWithFallbackState offBoardOpenGesture (640, 480) 100).2
      = some (.move (3, 3) (1, 1) 1) ∧
    (mapGestureToAction releaseWithFallbackState offBoardOpenGesture (640, 480) 100).2
      ≠ some (.cancel 1) := by
  decide

/-- C2 (amended): if a cell is selected and a CLOSED→OPEN release occurs
while the mapped board position is off-board (`None` cell) and no fallback
position is recorded (`last_valid_position` and `click_position` both
`None`), then — outside the debounce window — the mapper emits CANCEL and
clears the selection.  (When a fallback position is recorded, the release
is resolved at that position instead, as the counterexample shows.) -/
theorem offboard_release_cancel_without_fallback (s : InputMapperState)
    (g : SimpleHandGesture) (dims : ℤ × ℤ) (now : ℚ) (sel : Cell)
    (hfired : (updateHandState s (!g.is_open)).2 = true)
    (hopen : (updateHandState s (!g.is_open)).1.is_hand_closed = false)
    (hgrab : (updateHandState s (!g.is_open)).1.was_grabbing = true)
    (hsel : s.selected_piece = some sel)
    (hbp : screenToBoardCoords s.board_size g.position dims = none)
    (hlv : s.last_valid_position = none)
    (hcp : s.click_position = none)
    (hdeb : ¬ (now - s.last_action_time < s.action_cooldown)) :
    (mapGestureToAction s g dims now).2 = some (.cancel g.confidence) ∧
    (mapGestureToAction s g dims now).1.selected_piece = none := by
  have hbs := updateHandState_board_size s (!g.is_open)
  have hsp := updateHandState_selected_piece s (!g.is_open)
  have hlat := updateHandState_last_action_time s (!g.is_open)
  have hac := updateHandState_action_cooldown s (!g.is_open)
  have hlvp := updateHandState_last_valid_position s (!g.is_open)
  have hcpp := updateHandState_click_position s (!g.is_open)
  simp only [mapGestureToAction, mapTransition, hfired, hbs, hsp, hlat, hac,
    hlvp, hcpp, hbp, hopen, hgrab, hsel, hlv, hcp, and_true, if_neg hdeb,
    Bool.false_eq_true, false_and, if_false, not_false_iff, true_and, if_true]

unseal Rat.mul Rat.inv Rat.add Rat.sub in
/-- Witness for the amended C2: a selection at (3,3) with no recorded
fallback, released off-board, yields CANCEL and an empty selection. -/
theorem offboard_release_cancel_without_fallback_witness :
    (mapGestureToAction releaseNoFallbackState offBoardOpenGesture (640, 480) 100).2
      = some (.cancel 1) ∧
    (mapGestureToAction releaseNoFallbackState offBoardOpenGesture (640, 480) 100).1.selected_piece
      = none :=
  offboard_release_cancel_without_fallback releaseNoFallbackState offBoardOpenGesture
    (640, 480) 100 (3, 3) (by decide) (by decide) (by decide) (by decide)
    (by decide) (by decide) (by decide) (by decide)

unseal Rat.mul Rat.inv Rat.add Rat.sub in
/-- C6: if a cell is selected and a CLOSED→OPEN release occurs on that same
cell, the mapper emits nothing and the selection is kept (first conjunct);
and the concrete scenario — press at cell (2,3), external selection sync,
then a release transition at cell (2,3) — produces exactly one SELECT and
zero further actions over the whole frame sequence, with the selection
still (2,3) (second conjunct; the last fact confirms the seventh frame
really fires the release transition). -/
theorem same_cell_release_noop :
    (∀ (s : InputMapperState) (g : SimpleHandGesture) (dims : ℤ × ℤ) (now : ℚ) (sel : Cell),
      (updateHandState s (!g.is_open)).2 = true →
      (updateHandState s (!g.is_open)).1.is_hand_closed = false →
      (updateHandState s (!g.is_open)).1.was_grabbing = true →
      s.selected_piece = some sel →
      screenToBoardCoords s.board_size g.position dims = some sel →
      (mapGestureToAction s g dims now).2 = none ∧
      (mapGestureToAction s g dims now).1.selected_piece = some sel) ∧
    (c6press.2 = some (.select (2, 3) 1) ∧
     c6r2.2 = none ∧ c6r3.2 = none ∧ c6r4.2 = none ∧ c6r5.2 = none ∧
     c6r6.2 = none ∧ c6r7.2 = none ∧
     c6r7.1.selected_piece = some (2, 3) ∧
     (updateHandState c6r6.1 (!cell23OpenGesture.is_open)).2 = true) := by
  constructor
  · intro s g dims now sel hfired hopen hgrab hsel hbp
    have hbs := updateHandState_board_size s (!g.is_open)
    have hsp := updateHandState_selected_piece s (!g.is_open)
    have hlat := updateHandState_last_action_time s (!g.is_open)
    have hac := updateHandState_action_cooldown s (!g.is_open)
    by_cases hdeb : now - s.last_action_time < s.action_cooldown
    · simp only [mapGestureToAction, hfired, hlat, hac, and_true, if_pos hdeb]
      exact ⟨trivial, hsp.trans hsel⟩
    · simp only [mapGestureToAction, mapTransition, hfired, hbs, hsp, hlat, hac,
        hbp, hopen, hgrab, hsel, and_true, if_neg hdeb, Bool.false_eq_true,
        false_and, if_false, not_false_iff, true_and, if_true]
  · decide

unseal Rat.mul Rat.inv Rat.add Rat.sub in
/-- Witness for C6: a concrete selected state released on its own cell
emits nothing and keeps the selection. -/
theorem same_cell_release_noop_witness :
    (mapGestureToAction sameCellReleaseState cell23OpenGesture (640, 640) 50).2 = none ∧
    (mapGestureToAction sameCellReleaseState cell23OpenGesture (640, 640) 50).1.selected_piece
      = some (2, 3) :=
  same_cell_release_noop.1 sameCellReleaseState cell23OpenGesture (640, 640) 50 (2, 3)
    (by decide) (by decide) (by decide) (by decide) (by decide)

/-- C7: any frame whose hand-state transition fires within the cooldown of
the previous action produces no action at all (first conjunct); and any
action emitted on a transition frame is a transition action (select, move
or cancel — never hover) and records the current time as the new
`last_action_time`, leaving the cooldown constant unchanged — so of two
qualifying transitions closer together than the cooldown only the first
produces an action (second conjunct). -/
theorem transition_debounce :
    (∀ (s : InputMapperState) (g : SimpleHandGesture) (dims : ℤ × ℤ) (now : ℚ),
      (updateHandState s (!g.is_open)).2 = true →
      now - s.last_action_time < s.action_cooldown →
      (mapGestureToAction s g dims now).2 = none) ∧
    (∀ (s : InputMapperState) (g : SimpleHandGesture) (dims : ℤ × ℤ) (now : ℚ) (a : Action),
      (updateHandState s (!g.is_open)).2 = true →
      (mapGestureToAction s g dims now).2 = some a →
      a.isTransitionAction ∧
      (mapGestureToAction s g dims now).1.last_action_time = now ∧
      (mapGestureToAction s g dims now).1.action_cooldown = s.action_cooldown) := by
  constructor
  · intro s g dims now hfired hdeb
    have hlat := updateHandState_last_action_time s (!g.is_open)
    have hac := updateHandState_action_cooldown s (!g.is_open)
    simp only [mapGestureToAction, hfired, hlat, hac, and_true, if_pos hdeb]
  · intro s g dims now a hfired hemit
    obtain ⟨hwg, hcl⟩ := updateHandState_fired_flags s (!g.is_open) hfired
    have hlat := updateHandState_last_action_time s (!g.is_open)
    have hac := updateHandState_action_cooldown s (!g.is_open)
    by_cases hdeb : now - s.last_action_time < s.action_cooldown
    · exfalso
      simp only [mapGestureToAction, hfired, hlat, hac, and_true, if_pos hdeb] at hemit
      exact Option.noConfusion hemit
    · simp only [mapGestureToAction, hfired, hlat, hac, and_true, if_neg hdeb,
        eq_self_iff_true, if_true] at hemit ⊢
      split at hemit
      · next ret heq =>
        simp only at hemit
        subst hemit
        obtain ⟨hta, hl, hc⟩ := mapTransition_emit _ _ _ _ _ heq
        exact ⟨hta, hl, hc.trans hac⟩
      · next heq =>
        exfalso
        obtain ⟨hfl, hoff⟩ := mapTransition_fallthrough _ _ _ _ heq
        cases hv : s.is_hand_closed with
        | false =>
          have h1 : (updateHandState s (!g.is_open)).1.is_hand_closed = true := by
            rw [hcl, hv]; rfl
          have := mapTail_closed ((mapTransition (updateHandState s (!g.is_open)).1 g
            (screenToBoardCoords (updateHandState s (!g.is_open)).1.board_size g.position dims) now).1) g
            (screenToBoardCoords (updateHandState s (!g.is_open)).1.board_size g.position dims)
            (hfl.trans h1)
          rw [this] at hemit
          exact Option.noConfusion hemit
        | true =>
          have h1 : (updateHandState s (!g.is_open)).1.is_hand_closed = false := by
            rw [hcl, hv]; rfl
          have h2 : (updateHandState s (!g.is_open)).1.was_grabbing = true := by
            rw [hwg, hv]
          have hbpn := hoff h1 h2
          rw [hbpn] at hemit
          rw [mapTail_none_pos] at hemit
          exact Option.noConfusion hemit

unseal Rat.mul Rat.inv Rat.add Rat.sub in
/-- Witness for C7: a transition 0.1 s after the previous action is
suppressed, and an emitted press action (the C6 scenario press) is a
transition action that records its time. -/
theorem transition_debounce_witness :
    (mapGestureToAction recentActionState offBoardOpenGesture (640, 480) (101/10)).2 = none ∧
    ((Action.select (2, 3) 1).isTransitionAction ∧
     (mapGestureToAction pendingCloseState cell23ClosedGesture (640, 640) 10).1.last_action_time = 10 ∧
     (mapGestureToAction pendingCloseState cell23ClosedGesture (640, 640) 10).1.action_cooldown
       = pendingCloseState.action_cooldown) :=
  ⟨transition_debounce.1 recentActionState offBoardOpenGesture (640, 480) (101/10)
     (by decide) (by decide),
   transition_debounce.2 pendingCloseState cell23ClosedGesture (640, 640) 10 _
     (by decide) (by decide)⟩

unseal Rat.mul Rat.inv Rat.add Rat.sub in
/-- Counterexample to C3: an OPEN→CLOSED transition of
`InputMapper._update_hand_state` fires and the vote window is NOT cleared
afterwards — the eight closed votes that caused the transition are all
still in `gesture_history`. -/
theorem window_not_cleared_counterexample :
    (updateHandState pendingCloseState true).2 = true ∧
    (updateHandState pendingCloseState true).1.is_hand_closed = true ∧
    pendingCloseState.is_hand_closed = false ∧
    (updateHandState pendingCloseState true).1.gesture_history ≠ [] := by
  decide

/-- C3 (amended): a binary hand-state transition fires only when at least
`threshold_frac` of the last `stability_frames` votes agree on the opposite
of the current state — for `InputMapper._update_hand_state` at least 75% of
the last `gesture_stability_threshold` votes (first conjunct, which also
shows its window is retained rather than cleared after a transition), and
for `SimpleHandTracker._update_hand_state_v2` the majority of the last
`stability_threshold` votes is for the opposite state with a fraction of at
least 0.6 (third conjunct).  The vote window is cleared immediately after a
transition only in `_update_hand_state_v2` (second conjunct). -/
theorem hand_state_transition_discipline :
    (∀ (s : InputMapperState) (v : Bool),
      (updateHandState s v).2 = true →
      (updateHandState s v).1.gesture_history
        = pushVote s.gesture_history s.gesture_history_size v ∧
      (s.is_hand_closed = false →
        ((lastWindow (pushVote s.gesture_history s.gesture_history_size v)
            s.gesture_stability_threshold).countP id : ℚ)
          ≥ (s.gesture_stability_threshold : ℚ) * (3/4)) ∧
      (s.is_hand_closed = true →
        (((lastWindow (pushVote s.gesture_history s.gesture_history_size v)
            s.gesture_stability_threshold).length
          - (lastWindow (pushVote s.gesture_history s.gesture_history_size v)
              s.gesture_stability_threshold).countP id : ℕ) : ℚ)
          ≥ (s.gesture_stability_threshold : ℚ) * (3/4))) ∧
    (∀ (st : SimpleTrackerState) (v : Bool) (f : ℤ),
      (updateHandStateV2 st v f).1.current_state ≠ st.current_state →
      (updateHandStateV2 st v f).1.state_history = []) ∧
    (∀ (st : SimpleTrackerState) (v : Bool) (f : ℤ),
      (updateHandStateV2 st v f).1.current_state ≠ st.current_state →
      (((max ((lastWindow (pushVoteV2 st.state_history st.stability_frames v)
            (v2Threshold st.stability_frames f)).countP id)
          ((v2Threshold st.stability_frames f)
            - (lastWindow (pushVoteV2 st.state_history st.stability_frames v)
                (v2Threshold st.stability_frames f)).countP id) : ℕ) : ℚ)
          / (v2Threshold st.stability_frames f : ℚ) ≥ 6/10) ∧
      (st.current_state = false →
        (v2Threshold st.stability_frames f)
          - (lastWindow (pushVoteV2 st.state_history st.stability_frames v)
              (v2Threshold st.stability_frames f)).countP id
          < (lastWindow (pushVoteV2 st.state_history st.stability_frames v)
              (v2Threshold st.stability_frames f)).countP id) ∧
      (st.current_state = true →
        (lastWindow (pushVoteV2 st.state_history st.stability_frames v)
            (v2Threshold st.stability_frames f)).countP id
          ≤ (v2Threshold st.stability_frames f)
            - (lastWindow (pushVoteV2 st.state_history st.stability_frames v)
                (v2Threshold st.stability_frames f)).countP id)) := by
  refine ⟨?_, ?_, ?_⟩
  · intro s v hfired
    rcases hres : updateHandState s v with ⟨s2, ret⟩
    rw [hres] at hfired
    simp only [updateHandState] at hres
    repeat' split at hres
    all_goals (injection hres with h1 h2; subst h1; subst h2)
    · exact absurd hfired (by simp)
    · rename_i hcond
      refine ⟨rfl, fun _ => hcond.1, fun hcl => absurd hcl (by simpa using hcond.2)⟩
    · rename_i hcond
      refine ⟨rfl, fun hop => absurd hop ?_, fun _ => hcond.1⟩
      simp [hcond.2]
    · exact absurd hfired (by simp)
  · intro st v f hch
    rcases hres : updateHandStateV2 st v f with ⟨st2, ret⟩
    rw [hres] at hch
    simp only [updateHandStateV2] at hres
    repeat' split at hres
    all_goals (injection hres with h1 h2; subst h1)
    · rfl
    · exact absurd rfl hch
    · exact absurd rfl hch
  · intro st v f hch
    rcases hres : updateHandStateV2 st v f with ⟨st2, ret⟩
    rw [hres] at hch
    simp only [updateHandStateV2] at hres
    split at hres
    · split at hres
      · next hcnd =>
        injection hres with h1 h2
        subst h1
        refine ⟨hcnd.2, fun hcf => ?_, fun hct => ?_⟩
        · have hd := hcnd.1
          rw [hcf] at hd
          have hdt : (decide ((lastWindow (pushVoteV2 st.state_history st.stability_frames v)
              (v2Threshold st.stability_frames f)).countP id
              > (v2Threshold st.stability_frames f)
                - (lastWindow (pushVoteV2 st.state_history st.stability_frames v)
                    (v2Threshold st.stability_frames f)).countP id)) = true := by
            simpa using hd
          exact of_decide_eq_true hdt
        · have hd := hcnd.1
          rw [hct] at hd
          have hdf : (decide ((lastWindow (pushVoteV2 st.state_history st.stability_frames v)
              (v2Threshold st.stability_frames f)).countP id
              > (v2Threshold st.stability_frames f)
                - (lastWindow (pushVoteV2 st.state_history st.stability_frames v)
                    (v2Threshold st.stability_frames f)).countP id)) = false := by
            simpa using hd
          exact Nat.le_of_not_lt (of_decide_eq_false hdf)
      · injection hres with h1 h2
        subst h1
        exact absurd rfl hch
    · injection hres with h1 h2
      subst h1
      exact absurd rfl hch

unseal Rat.mul Rat.inv Rat.add Rat.sub in
/-- Witness for the amended C3: the concrete OPEN→CLOSED mapper transition
retains its pushed window, and a concrete v2 transition clears its window
with a 100% opposite-vote fraction. -/
theorem hand_state_transition_discipline_witness :
    (updateHandState pendingCloseState true).1.gesture_history
      = pushVote pendingCloseState.gesture_history pendingCloseState.gesture_history_size true ∧
    (updateHandStateV2 closingTrackerState false 0).1.state_history = [] ∧
    ((max ((lastWindow (pushVoteV2 closingTrackerState.state_history
          closingTrackerState.stability_frames false)
        (v2Threshold closingTrackerState.stability_frames 0)).countP id)
      ((v2Threshold closingTrackerState.stability_frames 0)
        - (lastWindow (pushVoteV2 closingTrackerState.state_history
            closingTrackerState.stability_frames false)
            (v2Threshold closingTrackerState.stability_frames 0)).countP id) : ℕ) : ℚ)
      / (v2Threshold closingTrackerState.stability_frames 0 : ℚ) ≥ 6/10 :=
  ⟨(hand_state_transition_discipline.1 pendingCloseState true (by decide)).1,
   hand_state_transition_discipline.2.1 closingTrackerState false 0 (by decide),
   (hand_state_transition_discipline.2.2 closingTrackerState false 0 (by decide)).1⟩

unseal Rat.mul Rat.inv Rat.add Rat.sub in
/-- Counterexample to C4: the normalized position (1/8, 1/8) on a 640×640
frame lies exactly on the cell edge between cells 0 and 1 of an 8×8 board
(pixel 80, cell side 80) and maps to cell (1,1) — the higher-index
neighbour — not to the lower-index cell (0,0). -/
theorem cell_edge_counterexample :
    screenToBoardCoords 8 (some (1/8, 1/8)) (640, 640) = some (1, 1) ∧
    screenToBoardCoords 8 (some (1/8, 1/8)) (640, 640) ≠ some (0, 0) := by
  decide

unseal Rat.mul Rat.inv Rat.add Rat.sub in
/-- C4 (amended): the cell index is computed with floor (truncation of a
nonnegative offset), so a position exactly on an interior cell edge maps to
the cell whose lower edge it is — the higher-index of the two adjacent
cells (first conjunct, over every interior edge of the default 8×8 board on
a 640×640 frame); and every position outside the board bounding square —
for example one unit beyond its edge — maps to `None` (second conjunct). -/
theorem coordinate_floor_and_bounds :
    (∀ j : Fin 8, 0 < j.val →
      screenToBoardCoords 8 (some ((j.val : ℚ)/8, (j.val : ℚ)/8)) (640, 640)
        = some ((j.val : ℤ), (j.val : ℤ))) ∧
    (∀ (board_size : ℤ) (np : ℚ × ℚ) (w h : ℤ),
      (np.1 * (w : ℚ) < ((w : ℚ) - ((min w h : ℤ) : ℚ)) / 2 ∨
       np.1 * (w : ℚ) > ((w : ℚ) - ((min w h : ℤ) : ℚ)) / 2 + ((min w h : ℤ) : ℚ) ∨
       np.2 * (h : ℚ) < ((h : ℚ) - ((min w h : ℤ) : ℚ)) / 2 ∨
       np.2 * (h : ℚ) > ((h : ℚ) - ((min w h : ℤ) : ℚ)) / 2 + ((min w h : ℤ) : ℚ)) →
      screenToBoardCoords board_size (some np) (w, h) = none) := by
  constructor
  · decide
  · intro bs np w h hout
    simp only [screenToBoardCoords]
    rw [if_pos]
    exact hout

unseal Rat.mul Rat.inv Rat.add Rat.sub in
/-- Witness for the amended C4: the edge position (1/8, 1/8) maps to cell
(1,1), and the position one pixel beyond the right board edge maps to
`None`. -/
theorem coordinate_floor_and_bounds_witness :
    screenToBoardCoords 8 (some (1/8, 1/8)) (640, 640) = some (1, 1) ∧
    screenToBoardCoords 8 (some (641/640, 1/2)) (640, 640) = none :=
  ⟨coordinate_floor_and_bounds.1 1 (by decide),
   coordinate_floor_and_bounds.2 8 (641/640, 1/2) 640 640 (by decide)⟩

/-- C5: over any run of consecutive frames with no detection (the hand
tracker returns `None`), the frame loop never touches the mapper: the whole
mapper state — in particular the selected cell — is unchanged and every
frame's action slot is `None` (so no CANCEL is ever emitted). -/
theorem no_detection_preserves_state (s : InputMapperState) (dims : ℤ × ℤ)
    (inputs : List (Option SimpleHandGesture × ℚ))
    (h : ∀ p ∈ inputs, p.1 = none) :
    runFrames s dims inputs = (s, inputs.map (fun _ => (none : Option Action))) ∧
    (runFrames s dims inputs).1.selected_piece = s.selected_piece ∧
    ∀ a ∈ (runFrames s dims inputs).2, a = none := by
  have key : runFrames s dims inputs = (s, inputs.map (fun _ => (none : Option Action))) := by
    induction inputs with
    | nil => rfl
    | cons hd tl ih =>
      obtain ⟨g, t⟩ := hd
      have hg : g = none := h (g, t) (List.mem_cons_self _ _)
      subst hg
      simp only [runFrames, processCameraFrame, List.map_cons]
      rw [ih (fun p hp => h p (List.mem_cons_of_mem _ hp))]
  refine ⟨key, by rw [key], ?_⟩
  rw [key]
  intro a ha
  simp only [List.mem_map] at ha
  obtain ⟨b, hb, hba⟩ := ha
  exact hba.symm

/-- Witness for C5: thirty consecutive no-detection frames with
`selected_cell = (3,4)` leave the selection at (3,4) and emit no action. -/
theorem no_detection_preserves_state_witness :
    (runFrames selected34State (640, 640)
      (List.replicate 30 ((none : Option SimpleHandGesture), 0))).1.selected_piece
      = some (3, 4) ∧
    (runFrames selected34State (640, 640)
      (List.replicate 30 ((none : Option SimpleHandGesture), 0))).2
      = List.replicate 30 none := by
  have h := no_detection_preserves_state selected34State (640, 640)
    (List.replicate 30 ((none : Option SimpleHandGesture), 0))
    (fun p hp => by rw [List.eq_of_mem_replicate hp])
  refine ⟨h.2.1.trans rfl, ?_⟩
  rw [h.1]
  simp

/-- C8: for sub-scores each in [0,1], `calculate_confidence` returns 0 when
any sub-score is below the 0.6 floor, and otherwise the convex combination
0.30·geometric + 0.25·color + 0.25·uniformity + 0.20·temporal capped at
1.0. -/
theorem confidence_floor_and_weights (g c u t : ℚ)
    (hg0 : 0 ≤ g) (hg1 : g ≤ 1) (hc0 : 0 ≤ c) (hc1 : c ≤ 1)
    (hu0 : 0 ≤ u) (hu1 : u ≤ 1) (ht0 : 0 ≤ t) (ht1 : t ≤ 1) :
    ((g < 6/10 ∨ c < 6/10 ∨ u < 6/10 ∨ t < 6/10) →
      (calculateConfidence g c u t).1 = 0) ∧
    (6/10 ≤ g → 6/10 ≤ c → 6/10 ≤ u → 6/10 ≤ t →
      (calculateConfidence g c u t).1
        = min 1 (g * (30/100) + c * (25/100) + u * (25/100) + t * (20/100))) := by
  constructor
  · intro h
    simp only [calculateConfidence, minComponentThreshold, weightGeometric,
      weightColor, weightUniformity, weightTemporal, List.any_cons, List.any_nil,
      Bool.or_false, Bool.or_eq_true, decide_eq_true_eq]
    rw [if_pos]
    · rcases h with h | h | h | h
      · exact Or.inl h
      · exact Or.inr (Or.inl h)
      · exact Or.inr (Or.inr (Or.inl h))
      · exact Or.inr (Or.inr (Or.inr h))
  · intro h1 h2 h3 h4
    simp only [calculateConfidence, minComponentThreshold, weightGeometric,
      weightColor, weightUniformity, weightTemporal, List.any_cons, List.any_nil,
      Bool.or_false, Bool.or_eq_true, decide_eq_true_eq]
    rw [if_neg]
    push_neg
    exact ⟨h1, h2, h3, h4⟩

/-- Witness for C8: a below-floor geometric score is rejected outright, and
scores (0.7, 0.8, 0.9, 0.6) combine to 0.755. -/
theorem confidence_floor_and_weights_witness :
    (calculateConfidence (1/2) 1 1 1).1 = 0 ∧
    (calculateConfidence (7/10) (8/10) (9/10) (6/10)).1 = 151/200 := by
  constructor
  · exact (confidence_floor_and_weights (1/2) 1 1 1 (by norm_num) (by norm_num)
      (by norm_num) (by norm_num) (by norm_num) (by norm_num) (by norm_num)
      (by norm_num)).1 (by norm_num)
  · have h := (confidence_floor_and_weights (7/10) (8/10) (9/10) (6/10)
      (by norm_num) (by norm_num) (by norm_num) (by norm_num) (by norm_num)
      (by norm_num) (by norm_num) (by norm_num)).2
      (by norm_num) (by norm_num) (by norm_num) (by norm_num)
    rw [h, min_eq_right (by norm_num)]
    norm_num

/-- C9: a vote window holding an exact 50/50 split of OPEN and CLOSED votes
never causes a transition — neither in `InputMapper._update_hand_state`
(last-8 window with four closed votes, at the default threshold 8) nor in
`SimpleHandTracker._update_hand_state_v2` (legacy path, window of four with
two open votes, at the default `stability_frames` 4). -/
theorem fifty_fifty_no_transition :
    (∀ (s : InputMapperState) (v : Bool),
      s.gesture_stability_threshold = 8 →
      8 ≤ (pushVote s.gesture_history s.gesture_history_size v).length →
      (lastWindow (pushVote s.gesture_history s.gesture_history_size v) 8).countP id = 4 →
      (updateHandState s v).1.is_hand_closed = s.is_hand_closed ∧
      (updateHandState s v).2 = false) ∧
    (∀ (st : SimpleTrackerState) (v : Bool),
      st.stability_frames = 4 →
      4 ≤ (pushVoteV2 st.state_history st.stability_frames v).length →
      (lastWindow (pushVoteV2 st.state_history st.stability_frames v) 4).countP id = 2 →
      (updateHandStateV2 st v (-1)).1.current_state = st.current_state) := by
  constructor
  · intro s v hT hlen hcount
    have hrl : (lastWindow (pushVote s.gesture_history s.gesture_history_size v) 8).length = 8 := by
      simp only [lastWindow, List.length_drop]
      omega
    simp only [updateHandState, hT, hcount, hrl]
    rw [if_neg (by omega), if_neg (by norm_num), if_neg (by norm_num)]
    exact ⟨rfl, rfl⟩
  · intro st v hT hlen hcount
    have hthr : v2Threshold 4 (-1) = 4 := by
      simp [v2Threshold]
    simp only [hT] at hlen hcount
    simp only [updateHandStateV2, hT, hthr, hcount, ge_iff_le]
    rw [if_pos hlen, if_neg (by norm_num)]

unseal Rat.mul Rat.inv Rat.add Rat.sub in
/-- Witness for C9: concrete 4/4 and 2/2 split windows leave both
classifiers' states unchanged. -/
theorem fifty_fifty_no_transition_witness :
    (updateHandState fiftyFiftyState false).1.is_hand_closed = fiftyFiftyState.is_hand_closed ∧
    (updateHandState fiftyFiftyState false).2 = false ∧
    (updateHandStateV2 fiftyFiftyTrackerState false (-1)).1.current_state
      = fiftyFiftyTrackerState.current_state :=
  ⟨(fifty_fifty_no_transition.1 fiftyFiftyState false rfl (by decide) (by decide)).1,
   (fifty_fifty_no_transition.1 fiftyFiftyState false rfl (by decide) (by decide)).2,
   fifty_fifty_no_transition.2 fiftyFiftyTrackerState false rfl (by decide) (by decide)⟩

/-- C10: `make_move` is atomic on rejection — whenever `to_pos` is not
among `get_valid_moves(from_pos)`, the result has `valid = False` and the
engine's board, current player and move history are unchanged. -/
theorem make_move_atomic_on_rejection (e : CheckersEngine) (from_pos to_pos : Cell)
    (h : to_pos ∉ getValidMoves e from_pos) :
    (makeMove e from_pos to_pos).2.validFlag = false ∧
    (makeMove e from_pos to_pos).1.board = e.board ∧
    (makeMove e from_pos to_pos).1.current_player = e.current_player ∧
    (makeMove e from_pos to_pos).1.move_history = e.move_history := by
  simp only [makeMove, if_pos h]
  simp [MoveOutcome.validFlag]

/-- Witness for C10: moving from the empty corner (0,0) — which has no
valid moves — to (1,1) on the initial board is rejected and leaves the
initial engine state intact. -/
theorem make_move_atomic_on_rejection_witness :
    (makeMove initialEngine (0, 0) (1, 1)).2.validFlag = false ∧
    (makeMove initialEngine (0, 0) (1, 1)).1.board = initialEngine.board ∧
    (makeMove initialEngine (0, 0) (1, 1)).1.current_player = 1 ∧
    (makeMove initialEngine (0, 0) (1, 1)).1.move_history = [] := by
  have h := make_move_atomic_on_rejection initialEngine (0, 0) (1, 1) (by decide)
  exact ⟨h.1, h.2.1, h.2.2.1, h.2.2.2⟩

end Checkers
